import Mathlib

/-!
Verification of `download_from_drive.py`: a shallow embedding of its
retry/search loop (`search_and_download`), its chunked fetcher
(`download_file`) and its top-level driver (`main`), together with proofs of
the behavioural properties stated in the design document.

Modelling conventions:
* The Google Drive service is replaced by two oracles: `oracle : Nat →
  SearchResult` gives, for each attempt index, what
  `service.files().list(...).execute()` does on that attempt (raise, or
  return a list of file records), and `stream : String → ChunkStream` gives,
  per file id, the behaviour of the chunked download for that file.
* The destination file is modelled as `Option (List Nat)`: `none` means no
  file exists at `output_path`, `some bs` means a file with byte content
  `bs`.
* `time.sleep(retry_delay)` is modelled by recording the argument of each
  sleep call in a trace list; `print` side effects that carry program state
  (the final not-found message, the progress reports) are recorded in the
  trace as structured data.
-/

namespace DownloadFromDrive

/-- One file record as returned by the Drive `files.list` API, with the
fields requested by the script: `id`, `name`, `createdTime`, `size`
(the latter two optional, the script uses `.get(...)` for them). -/
structure FileInfo where
  id : String
  name : String
  size : Option String
  createdTime : Option String
deriving Repr, DecidableEq

/-- Outcome of one `service.files().list(q=query, ...).execute()` call:
either it raises an exception (`err`, caught by the script's
`except Exception` handler) or it returns normally with
`files = results.get('files', [])`. -/
inductive SearchResult where
  | ok (files : List FileInfo)
  | err
deriving Repr, DecidableEq

/-- An attempt is a miss when the query raised or returned no files
(the two branches of `search_and_download` that fall through to the
retry/sleep logic). -/
def SearchResult.isMiss : SearchResult → Bool
  | .ok [] => true
  | .ok (_ :: _) => false
  | .err => true

/-- Modelled from the spec: the chunked byte stream opened by
`MediaIoBaseDownload` (external library, not part of this repository's
source). `chunks` are the byte chunks delivered in order by successive
`next_chunk()` calls; if `fails = true` the stream raises after delivering
`chunks` instead of signalling completion, otherwise the last chunk arrives
together with `done = True`. -/
structure ChunkStream where
  chunks : List (List Nat)
  fails : Bool
deriving Repr, DecidableEq

/-- Modelled from the spec: the progress fraction surfaced by
`status.progress()` after the `i`-th chunk — the fraction of the content
downloaded so far. A stream whose total size is zero is complete from the
start, so its fraction is `1`. -/
def progressAfter (chunks : List (List Nat)) (i : Nat) : ℚ :=
  if (chunks.map List.length).sum = 0 then 1
  else (((chunks.take (i + 1)).map List.length).sum : ℚ)
    / (((chunks.map List.length).sum : Nat) : ℚ)

/-- Result of `download_file`: the returned boolean, the destination file
after the call (`none` = absent), and the progress fractions reported after
each delivered chunk. -/
structure DownloadResult where
  success : Bool
  fsAfter : Option (List Nat)
  reports : List ℚ
deriving Repr, DecidableEq

/-- `download_file(service, file_id, file_name, output_path)`: pulls chunks
into an in-memory buffer until `done`, printing a progress report after each
chunk, then writes the whole buffer to `output_path`; any exception is
caught and turned into a `False` return, with no write. `fs` is the
destination file before the call. -/
def download_file (stream : ChunkStream) (fs : Option (List Nat)) : DownloadResult :=
  let reports := (List.range stream.chunks.length).map (progressAfter stream.chunks)
  if stream.fails then
    { success := false, fsAfter := fs, reports := reports }
  else
    { success := true, fsAfter := some stream.chunks.flatten, reports := reports }

/-- The query string built on every attempt:
`name='{filename}' and '{folder_id}' in parents and trashed=false`. -/
def quoteCh : String := String.singleton (Char.ofNat 39)

/-- The search query of `search_and_download`, line 169 of the source. -/
def mkQuery (filename folder_id : String) : String :=
  "name=" ++ quoteCh ++ filename ++ quoteCh ++ " and " ++ quoteCh ++ folder_id
    ++ quoteCh ++ " in parents and trashed=false"

/-- How one invocation of `search_and_download` ended:
`success fi` — file `fi` was found and `download_file` returned `True`;
`downloadFailed fi` — file `fi` was found but `download_file` returned
`False` ("Download failed, but file was found");
`notFound filename attempts` — the loop exhausted, line 213 prints the
filename and `max_attempts`. -/
inductive Outcome where
  | success (fi : FileInfo)
  | downloadFailed (fi : FileInfo)
  | notFound (filename : String) (attempts : Int)
deriving Repr, DecidableEq

/-- The resolved handle of an outcome, when the search ever hit. -/
def Outcome.handle : Outcome → Option FileInfo
  | .success fi => some fi
  | .downloadFailed fi => some fi
  | .notFound _ _ => none

/-- Observable trace of one `search_and_download` run:
`queryStrings` — the `q=` string of each executed search query, in order;
`sleepCalls` — the argument of each `time.sleep` call, in order;
`diagQueries` — how many diagnostic `list_folder_files` listings ran
(verbose misses only; observability, never control flow);
`outcome`/`ret` — how the run ended and the returned boolean;
`fsAfter` — the destination file after the run;
`reports` — progress fractions printed by the download, if one ran. -/
structure RunTrace where
  queryStrings : List String
  sleepCalls : List Int
  diagQueries : Nat
  outcome : Outcome
  ret : Bool
  fsAfter : Option (List Nat)
  reports : List ℚ
deriving Repr, DecidableEq

/-- The `for attempt in range(max_attempts)` loop of `search_and_download`,
as a fuel recursion: `attempt` is the Python loop variable, `fuel` the
number of iterations left (`search_and_download` starts it at
`max_attempts.toNat`, the length of Python's `range(max_attempts)`).
Each iteration: run the query (`oracle attempt`); on a non-empty result
download `files[0]` and return; on an empty result optionally run the
diagnostic listing, then sleep iff `attempt < max_attempts - 1`; on an
exception, sleep under the same condition. After the loop, print the
not-found message and return `False`. -/
def searchLoop (oracle : Nat → SearchResult) (stream : String → ChunkStream)
    (folder_id filename : String) (fs : Option (List Nat))
    (max_attempts retry_delay : Int) (verbose : Bool) :
    Nat → Nat → RunTrace
  | _, 0 =>
    { queryStrings := [], sleepCalls := [], diagQueries := 0,
      outcome := .notFound filename max_attempts, ret := false,
      fsAfter := fs, reports := [] }
  | attempt, fuel + 1 =>
    match oracle attempt with
    | .ok (fi :: _) =>
      let d := download_file (stream fi.id) fs
      { queryStrings := [mkQuery filename folder_id], sleepCalls := [],
        diagQueries := 0,
        outcome := if d.success then .success fi else .downloadFailed fi,
        ret := d.success, fsAfter := d.fsAfter, reports := d.reports }
    | .ok [] =>
      let diag := if verbose then 1 else 0
      let slept := if (attempt : Int) < max_attempts - 1 then [retry_delay] else []
      let t := searchLoop oracle stream folder_id filename fs
        max_attempts retry_delay verbose (attempt + 1) fuel
      { t with queryStrings := mkQuery filename folder_id :: t.queryStrings,
               sleepCalls := slept ++ t.sleepCalls,
               diagQueries := diag + t.diagQueries }
    | .err =>
      let slept := if (attempt : Int) < max_attempts - 1 then [retry_delay] else []
      let t := searchLoop oracle stream folder_id filename fs
        max_attempts retry_delay verbose (attempt + 1) fuel
      { t with queryStrings := mkQuery filename folder_id :: t.queryStrings,
               sleepCalls := slept ++ t.sleepCalls }

/-- `search_and_download(service, folder_id, filename, output_path,
max_attempts, retry_delay, verbose)`. `range(max_attempts)` has
`max_attempts.toNat` elements (empty when `max_attempts ≤ 0`). -/
def search_and_download (oracle : Nat → SearchResult) (stream : String → ChunkStream)
    (folder_id filename : String) (fs : Option (List Nat))
    (max_attempts retry_delay : Int) (verbose : Bool) : RunTrace :=
  searchLoop oracle stream folder_id filename fs max_attempts retry_delay verbose
    0 max_attempts.toNat

/-- Command line arguments after `parse_arguments`. `max_attempts` and
`retry_delay` are Python ints (possibly negative). -/
structure Args where
  filename : String
  credentials_base64 : Option String
  folder_id : Option String
  output_path : Option String
  max_attempts : Int
  retry_delay : Int
  verbose : Bool

/-- The process environment variables the script reads. -/
structure Env where
  DRIVE_CREDENTIALS : Option String
  DRIVE_FOLDER_ID : Option String

/-- Python's `a or b` on optional strings: `a` unless it is falsy
(`None` or the empty string), else `b`. -/
def pyOrStr (a b : Option String) : Option String :=
  match a with
  | some s => if s = "" then b else some s
  | none => b

/-- Python's `not x` truthiness test on an optional string. -/
def isFalsyStr : Option String → Bool
  | none => true
  | some s => s = ""

/-- Result of `main`: the process exit status, and the
`search_and_download` trace when the run got that far. -/
structure MainResult where
  exitCode : Nat
  run : Option RunTrace

/-- `main()`: resolve credentials and folder id from arguments with
environment fallback (exit 1 when missing), decode credentials
(`credsValid` models whether `get_credentials` succeeds; it calls
`sys.exit(1)` on failure), then run `search_and_download` and exit 0 on
success, 1 otherwise. -/
def main (args : Args) (env : Env) (credsValid : String → Bool)
    (oracle : Nat → SearchResult) (stream : String → ChunkStream)
    (fs : Option (List Nat)) : MainResult :=
  match pyOrStr args.credentials_base64 env.DRIVE_CREDENTIALS with
  | none => { exitCode := 1, run := none }
  | some cred =>
    if cred = "" then { exitCode := 1, run := none }
    else
      match pyOrStr args.folder_id env.DRIVE_FOLDER_ID with
      | none => { exitCode := 1, run := none }
      | some folder =>
        if folder = "" then { exitCode := 1, run := none }
        else if ¬ credsValid cred then { exitCode := 1, run := none }
        else
          let t := search_and_download oracle stream folder args.filename fs
            args.max_attempts args.retry_delay args.verbose
          { exitCode := if t.ret then 0 else 1, run := some t }

/-! ### Unfolding lemmas for the retry loop -/

theorem searchLoop_zero (oracle : Nat → SearchResult) (stream : String → ChunkStream)
    (folder_id filename : String) (fs : Option (List Nat))
    (N rd : Int) (v : Bool) (attempt : Nat) :
    searchLoop oracle stream folder_id filename fs N rd v attempt 0 =
      { queryStrings := [], sleepCalls := [], diagQueries := 0,
        outcome := .notFound filename N, ret := false,
        fsAfter := fs, reports := [] } := rfl

theorem searchLoop_hit (oracle : Nat → SearchResult) (stream : String → ChunkStream)
    (folder_id filename : String) (fs : Option (List Nat))
    (N rd : Int) (v : Bool) (attempt fuel : Nat) (fi : FileInfo) (rest : List FileInfo)
    (h : oracle attempt = .ok (fi :: rest)) :
    searchLoop oracle stream folder_id filename fs N rd v attempt (fuel + 1) =
      { queryStrings := [mkQuery filename folder_id], sleepCalls := [],
        diagQueries := 0,
        outcome := if (download_file (stream fi.id) fs).success then .success fi
          else .downloadFailed fi,
        ret := (download_file (stream fi.id) fs).success,
        fsAfter := (download_file (stream fi.id) fs).fsAfter,
        reports := (download_file (stream fi.id) fs).reports } := by
  simp only [searchLoop, h]

theorem searchLoop_emptyStep (oracle : Nat → SearchResult) (stream : String → ChunkStream)
    (folder_id filename : String) (fs : Option (List Nat))
    (N rd : Int) (v : Bool) (attempt fuel : Nat)
    (h : oracle attempt = .ok []) :
    searchLoop oracle stream folder_id filename fs N rd v attempt (fuel + 1) =
      { queryStrings := mkQuery filename folder_id ::
          (searchLoop oracle stream folder_id filename fs N rd v (attempt + 1) fuel).queryStrings,
        sleepCalls := (if (attempt : Int) < N - 1 then [rd] else []) ++
          (searchLoop oracle stream folder_id filename fs N rd v (attempt + 1) fuel).sleepCalls,
        diagQueries := (if v then 1 else 0) +
          (searchLoop oracle stream folder_id filename fs N rd v (attempt + 1) fuel).diagQueries,
        outcome := (searchLoop oracle stream folder_id filename fs N rd v (attempt + 1) fuel).outcome,
        ret := (searchLoop oracle stream folder_id filename fs N rd v (attempt + 1) fuel).ret,
        fsAfter := (searchLoop oracle stream folder_id filename fs N rd v (attempt + 1) fuel).fsAfter,
        reports := (searchLoop oracle stream folder_id filename fs N rd v (attempt + 1) fuel).reports } := by
  simp only [searchLoop, h]

theorem searchLoop_errStep (oracle : Nat → SearchResult) (stream : String → ChunkStream)
    (folder_id filename : String) (fs : Option (List Nat))
    (N rd : Int) (v : Bool) (attempt fuel : Nat)
    (h : oracle attempt = .err) :
    searchLoop oracle stream folder_id filename fs N rd v attempt (fuel + 1) =
      { queryStrings := mkQuery filename folder_id ::
          (searchLoop oracle stream folder_id filename fs N rd v (attempt + 1) fuel).queryStrings,
        sleepCalls := (if (attempt : Int) < N - 1 then [rd] else []) ++
          (searchLoop oracle stream folder_id filename fs N rd v (attempt + 1) fuel).sleepCalls,
        diagQueries :=
          (searchLoop oracle stream folder_id filename fs N rd v (attempt + 1) fuel).diagQueries,
        outcome := (searchLoop oracle stream folder_id filename fs N rd v (attempt + 1) fuel).outcome,
        ret := (searchLoop oracle stream folder_id filename fs N rd v (attempt + 1) fuel).ret,
        fsAfter := (searchLoop oracle stream folder_id filename fs N rd v (attempt + 1) fuel).fsAfter,
        reports := (searchLoop oracle stream folder_id filename fs N rd v (attempt + 1) fuel).reports } := by
  simp only [searchLoop, h]

/-- When every query of the suffix comes back empty, the loop runs them all:
one query per unit of fuel, a sleep on each but the last iteration, and the
not-found outcome. -/
theorem searchLoop_allEmpty (oracle : Nat → SearchResult) (stream : String → ChunkStream)
    (folder_id filename : String) (fs : Option (List Nat))
    (N rd : Int) (v : Bool) (h : ∀ i, oracle i = .ok []) :
    ∀ fuel attempt, attempt + fuel = N.toNat →
      searchLoop oracle stream folder_id filename fs N rd v attempt fuel =
        { queryStrings := List.replicate fuel (mkQuery filename folder_id),
          sleepCalls := List.replicate (fuel - 1) rd,
          diagQueries := fuel * (if v then 1 else 0),
          outcome := .notFound filename N, ret := false,
          fsAfter := fs, reports := [] } := by
  intro fuel
  induction fuel with
  | zero => intro attempt _; simp [searchLoop_zero]
  | succ fuel ih =>
    intro attempt hatt
    rw [searchLoop_emptyStep oracle stream folder_id filename fs N rd v attempt fuel (h attempt),
      ih (attempt + 1) (by omega)]
    rcases Nat.eq_zero_or_pos fuel with hf | hf
    · subst hf
      have hcond : ¬ ((attempt : Int) < N - 1) := by omega
      simp [hcond]
    · have hcond : (attempt : Int) < N - 1 := by omega
      have hq : mkQuery filename folder_id :: List.replicate fuel (mkQuery filename folder_id)
          = List.replicate (fuel + 1) (mkQuery filename folder_id) :=
        (List.replicate_succ _ _).symm
      have hs : rd :: List.replicate (fuel - 1) rd = List.replicate (fuel + 1 - 1) rd := by
        rw [Nat.succ_sub_one]
        conv_rhs => rw [show fuel = (fuel - 1) + 1 from by omega]
        simp [List.replicate_succ]
      simp [hcond, hq, hs]
      cases v <;> simp [Nat.add_comm]

/-- When every attempt before index `j` is a miss and attempt `j` returns a
non-empty result headed by `fi`, the loop (entered at `attempt ≤ j`) runs
exactly the queries up to and including `j`, sleeps after each miss, then
downloads `fi` and stops. -/
theorem searchLoop_firstHit (oracle : Nat → SearchResult) (stream : String → ChunkStream)
    (folder_id filename : String) (fs : Option (List Nat))
    (N rd : Int) (v : Bool) (j : Nat) (fi : FileInfo) (rest : List FileInfo)
    (hmiss : ∀ i, i < j → (oracle i).isMiss = true)
    (hhit : oracle j = .ok (fi :: rest)) (hj : j < N.toNat) :
    ∀ fuel attempt, attempt + fuel = N.toNat → attempt ≤ j →
      (searchLoop oracle stream folder_id filename fs N rd v attempt fuel).queryStrings
          = List.replicate (j - attempt + 1) (mkQuery filename folder_id) ∧
      (searchLoop oracle stream folder_id filename fs N rd v attempt fuel).sleepCalls
          = List.replicate (j - attempt) rd ∧
      (searchLoop oracle stream folder_id filename fs N rd v attempt fuel).outcome
          = (if (download_file (stream fi.id) fs).success then Outcome.success fi
             else Outcome.downloadFailed fi) ∧
      (searchLoop oracle stream folder_id filename fs N rd v attempt fuel).ret
          = (download_file (stream fi.id) fs).success ∧
      (searchLoop oracle stream folder_id filename fs N rd v attempt fuel).fsAfter
          = (download_file (stream fi.id) fs).fsAfter ∧
      (searchLoop oracle stream folder_id filename fs N rd v attempt fuel).reports
          = (download_file (stream fi.id) fs).reports := by
  intro fuel
  induction fuel with
  | zero => intro attempt hatt hle; omega
  | succ fuel ih =>
    intro attempt hatt hle
    rcases Nat.lt_or_ge attempt j with hlt | hge
    · have hm := hmiss attempt hlt
      have hcond : (attempt : Int) < N - 1 := by omega
      have hrep : j - attempt = (j - (attempt + 1)) + 1 := by omega
      obtain ⟨h1, h2, h3, h4, h5, h6⟩ := ih (attempt + 1) (by omega) (by omega)
      cases ho : oracle attempt with
      | err =>
        rw [searchLoop_errStep oracle stream folder_id filename fs N rd v attempt fuel ho]
        refine ⟨?_, ?_, h3, h4, h5, h6⟩
        · rw [h1, hrep]; rfl
        · simp only [hcond, if_true, List.singleton_append, h2, hrep]; rfl
      | ok files =>
        cases files with
        | nil =>
          rw [searchLoop_emptyStep oracle stream folder_id filename fs N rd v attempt fuel ho]
          refine ⟨?_, ?_, h3, h4, h5, h6⟩
          · rw [h1, hrep]; rfl
          · simp only [hcond, if_true, List.singleton_append, h2, hrep]; rfl
        | cons f r => rw [ho] at hm; simp [SearchResult.isMiss] at hm
    · have heq : attempt = j := by omega
      subst heq
      rw [searchLoop_hit oracle stream folder_id filename fs N rd v attempt fuel fi rest hhit]
      simp

/-- The returned boolean of the loop is `True` exactly when its outcome is a
successful download. -/
theorem searchLoop_ret_iff (oracle : Nat → SearchResult) (stream : String → ChunkStream)
    (folder_id filename : String) (fs : Option (List Nat))
    (N rd : Int) (v : Bool) :
    ∀ fuel attempt,
      ((searchLoop oracle stream folder_id filename fs N rd v attempt fuel).ret = true ↔
        ∃ fi, (searchLoop oracle stream folder_id filename fs N rd v attempt fuel).outcome
          = Outcome.success fi) := by
  intro fuel
  induction fuel with
  | zero => intro attempt; simp [searchLoop_zero]
  | succ fuel ih =>
    intro attempt
    cases ho : oracle attempt with
    | err =>
      rw [searchLoop_errStep oracle stream folder_id filename fs N rd v attempt fuel ho]
      exact ih (attempt + 1)
    | ok files =>
      cases files with
      | nil =>
        rw [searchLoop_emptyStep oracle stream folder_id filename fs N rd v attempt fuel ho]
        exact ih (attempt + 1)
      | cons fi r =>
        rw [searchLoop_hit oracle stream folder_id filename fs N rd v attempt fuel fi r ho]
        cases hd : (download_file (stream fi.id) fs).success <;> simp [hd]

/-! ### Claim theorems -/

/-- C1: for every `max_attempts = N ≥ 1`, if every search query returns an
empty result set, `search_and_download` executes exactly `N` queries and
sleeps exactly `N - 1` times — each sleep with the fixed `retry_delay`, and
none after the final attempt (the trace holds only `N - 1` sleep calls) —
then fails with the not-found outcome carrying the filename and the attempt
count, returning `False`. -/
theorem resolver_exhausts_all_attempts (oracle : Nat → SearchResult)
    (stream : String → ChunkStream) (folder_id filename : String)
    (fs : Option (List Nat)) (N rd : Int) (v : Bool)
    (hN : 1 ≤ N) (h : ∀ i, oracle i = .ok []) :
    search_and_download oracle stream folder_id filename fs N rd v =
      { queryStrings := List.replicate N.toNat (mkQuery filename folder_id),
        sleepCalls := List.replicate (N.toNat - 1) rd,
        diagQueries := N.toNat * (if v then 1 else 0),
        outcome := .notFound filename N, ret := false,
        fsAfter := fs, reports := [] } :=
  searchLoop_allEmpty oracle stream folder_id filename fs N rd v h N.toNat 0 (Nat.zero_add _)

theorem resolver_exhausts_all_attempts_witness :
    (1 : Int) ≤ 3 ∧
    search_and_download (fun _ => .ok []) (fun _ => ⟨[], false⟩)
        "FLD1" "artifact.zip" none 3 5 false =
      { queryStrings := List.replicate 3 (mkQuery "artifact.zip" "FLD1"),
        sleepCalls := List.replicate 2 5,
        diagQueries := 0,
        outcome := .notFound "artifact.zip" 3, ret := false,
        fsAfter := none, reports := [] } :=
  ⟨by norm_num,
   resolver_exhausts_all_attempts (fun _ => .ok []) (fun _ => ⟨[], false⟩)
     "FLD1" "artifact.zip" none 3 5 false (by norm_num) (fun _ => rfl)⟩

/-- C2: if the index first returns a non-empty result on attempt `k ≤ N`
(attempts numbered from 1), the resolver executes exactly `k` queries and
records exactly `k - 1` sleep calls, all before the `k`-th attempt: success
short-circuits the remaining attempts. -/
theorem resolver_success_shortcircuits (oracle : Nat → SearchResult)
    (stream : String → ChunkStream) (folder_id filename : String)
    (fs : Option (List Nat)) (N rd : Int) (v : Bool)
    (k : Nat) (fi : FileInfo) (rest : List FileInfo)
    (hk1 : 1 ≤ k) (hkN : (k : Int) ≤ N)
    (hmiss : ∀ i, i < k - 1 → (oracle i).isMiss = true)
    (hhit : oracle (k - 1) = .ok (fi :: rest)) :
    (search_and_download oracle stream folder_id filename fs N rd v).queryStrings
        = List.replicate k (mkQuery filename folder_id) ∧
    (search_and_download oracle stream folder_id filename fs N rd v).sleepCalls
        = List.replicate (k - 1) rd := by
  obtain ⟨h1, h2, -, -, -, -⟩ :=
    searchLoop_firstHit oracle stream folder_id filename fs N rd v (k - 1) fi rest
      hmiss hhit (by omega) N.toNat 0 (Nat.zero_add _) (by omega)
  refine ⟨?_, ?_⟩
  · rw [search_and_download, h1, show k - 1 - 0 + 1 = k from by omega]
  · rw [search_and_download, h2, Nat.sub_zero]

theorem resolver_success_shortcircuits_witness :
    (1 : Nat) ≤ 3 ∧ ((3 : Nat) : Int) ≤ 5 ∧
    ((fun i => if i < 2 then SearchResult.ok [] else
        SearchResult.ok [⟨"id1", "artifact.zip", none, none⟩]) (3 - 1)
      = SearchResult.ok [⟨"id1", "artifact.zip", none, none⟩]) ∧
    (search_and_download
        (fun i => if i < 2 then SearchResult.ok [] else
          SearchResult.ok [⟨"id1", "artifact.zip", none, none⟩])
        (fun _ => ⟨[[1, 2], [3]], false⟩) "FLD1" "artifact.zip" none 5 7
        false).queryStrings
        = List.replicate 3 (mkQuery "artifact.zip" "FLD1") ∧
    (search_and_download
        (fun i => if i < 2 then SearchResult.ok [] else
          SearchResult.ok [⟨"id1", "artifact.zip", none, none⟩])
        (fun _ => ⟨[[1, 2], [3]], false⟩) "FLD1" "artifact.zip" none 5 7
        false).sleepCalls
        = List.replicate 2 7 := by
  refine ⟨by norm_num, by norm_num, by norm_num, ?_⟩
  exact resolver_success_shortcircuits
    (fun i => if i < 2 then SearchResult.ok [] else
      SearchResult.ok [⟨"id1", "artifact.zip", none, none⟩])
    (fun _ => ⟨[[1, 2], [3]], false⟩) "FLD1" "artifact.zip" none 5 7 false
    3 ⟨"id1", "artifact.zip", none, none⟩ []
    (by norm_num) (by norm_num)
    (by intro i hi; interval_cases i <;> rfl) (by norm_num)

/-- The loop entered at `attempt` only consults the oracle at indices
`≥ attempt`. -/
theorem searchLoop_congr (f g : Nat → SearchResult) (stream : String → ChunkStream)
    (folder_id filename : String) (fs : Option (List Nat))
    (N rd : Int) (v : Bool) :
    ∀ fuel attempt, (∀ i, attempt ≤ i → f i = g i) →
      searchLoop f stream folder_id filename fs N rd v attempt fuel =
        searchLoop g stream folder_id filename fs N rd v attempt fuel := by
  intro fuel
  induction fuel with
  | zero => intro attempt _; rfl
  | succ fuel ih =>
    intro attempt hfg
    have hrec := ih (attempt + 1) (fun i hi => hfg i (by omega))
    have ha := hfg attempt (Nat.le_refl _)
    cases ho : g attempt with
    | err =>
      rw [searchLoop_errStep f stream folder_id filename fs N rd v attempt fuel (ha.trans ho),
        searchLoop_errStep g stream folder_id filename fs N rd v attempt fuel ho, hrec]
    | ok files =>
      cases files with
      | nil =>
        rw [searchLoop_emptyStep f stream folder_id filename fs N rd v attempt fuel (ha.trans ho),
          searchLoop_emptyStep g stream folder_id filename fs N rd v attempt fuel ho, hrec]
      | cons fi r =>
        rw [searchLoop_hit f stream folder_id filename fs N rd v attempt fuel fi r (ha.trans ho),
          searchLoop_hit g stream folder_id filename fs N rd v attempt fuel fi r ho]

/-- C3: an attempt whose query raises is handled, for retry purposes,
exactly like an attempt whose query returns an empty result set: replacing
the raising attempt `i` by an empty-result attempt leaves every part of the
run unchanged — same queries, same sleep calls (the same fixed backoff,
applied iff attempts remain), same outcome, return value, destination file
and progress reports. Only the verbose-mode diagnostic listing count (pure
observability, run on empty results but not on errors) may differ, so the
failure is never escalated mid-loop. -/
theorem query_error_like_empty_result (f : Nat → SearchResult)
    (stream : String → ChunkStream) (folder_id filename : String)
    (fs : Option (List Nat)) (N rd : Int) (v : Bool) (i : Nat)
    (h : f i = .err) :
    (search_and_download f stream folder_id filename fs N rd v).queryStrings
        = (search_and_download (Function.update f i (.ok [])) stream folder_id filename fs N rd v).queryStrings ∧
    (search_and_download f stream folder_id filename fs N rd v).sleepCalls
        = (search_and_download (Function.update f i (.ok [])) stream folder_id filename fs N rd v).sleepCalls ∧
    (search_and_download f stream folder_id filename fs N rd v).outcome
        = (search_and_download (Function.update f i (.ok [])) stream folder_id filename fs N rd v).outcome ∧
    (search_and_download f stream folder_id filename fs N rd v).ret
        = (search_and_download (Function.update f i (.ok [])) stream folder_id filename fs N rd v).ret ∧
    (search_and_download f stream folder_id filename fs N rd v).fsAfter
        = (search_and_download (Function.update f i (.ok [])) stream folder_id filename fs N rd v).fsAfter ∧
    (search_and_download f stream folder_id filename fs N rd v).reports
        = (search_and_download (Function.update f i (.ok [])) stream folder_id filename fs N rd v).reports := by
  have key : ∀ fuel attempt,
      (searchLoop f stream folder_id filename fs N rd v attempt fuel).queryStrings
          = (searchLoop (Function.update f i (.ok [])) stream folder_id filename fs N rd v attempt fuel).queryStrings ∧
      (searchLoop f stream folder_id filename fs N rd v attempt fuel).sleepCalls
          = (searchLoop (Function.update f i (.ok [])) stream folder_id filename fs N rd v attempt fuel).sleepCalls ∧
      (searchLoop f stream folder_id filename fs N rd v attempt fuel).outcome
          = (searchLoop (Function.update f i (.ok [])) stream folder_id filename fs N rd v attempt fuel).outcome ∧
      (searchLoop f stream folder_id filename fs N rd v attempt fuel).ret
          = (searchLoop (Function.update f i (.ok [])) stream folder_id filename fs N rd v attempt fuel).ret ∧
      (searchLoop f stream folder_id filename fs N rd v attempt fuel).fsAfter
          = (searchLoop (Function.update f i (.ok [])) stream folder_id filename fs N rd v attempt fuel).fsAfter ∧
      (searchLoop f stream folder_id filename fs N rd v attempt fuel).reports
          = (searchLoop (Function.update f i (.ok [])) stream folder_id filename fs N rd v attempt fuel).reports := by
    intro fuel
    induction fuel with
    | zero => intro attempt; exact ⟨rfl, rfl, rfl, rfl, rfl, rfl⟩
    | succ fuel ih =>
      intro attempt
      by_cases hai : attempt = i
      · subst hai
        have hupd : Function.update f attempt (SearchResult.ok []) attempt
            = SearchResult.ok [] := Function.update_same attempt (SearchResult.ok []) f
        have hrec : searchLoop f stream folder_id filename fs N rd v (attempt + 1) fuel
            = searchLoop (Function.update f attempt (.ok [])) stream folder_id filename fs
                N rd v (attempt + 1) fuel :=
          searchLoop_congr f (Function.update f attempt (.ok [])) stream folder_id filename
            fs N rd v fuel (attempt + 1)
            (fun j hj => (Function.update_noteq (by omega) _ f).symm)
        rw [searchLoop_errStep f stream folder_id filename fs N rd v attempt fuel h,
          searchLoop_emptyStep (Function.update f attempt (.ok [])) stream folder_id
            filename fs N rd v attempt fuel hupd, hrec]
        exact ⟨rfl, rfl, rfl, rfl, rfl, rfl⟩
      · have hupd : Function.update f i (SearchResult.ok []) attempt = f attempt :=
          Function.update_noteq hai _ f
        obtain ⟨k1, k2, k3, k4, k5, k6⟩ := ih (attempt + 1)
        cases ho : f attempt with
        | err =>
          rw [searchLoop_errStep f stream folder_id filename fs N rd v attempt fuel ho,
            searchLoop_errStep (Function.update f i (.ok [])) stream folder_id filename fs
              N rd v attempt fuel (hupd.trans ho)]
          exact ⟨by rw [k1], by rw [k2], k3, k4, k5, k6⟩
        | ok files =>
          cases files with
          | nil =>
            rw [searchLoop_emptyStep f stream folder_id filename fs N rd v attempt fuel ho,
              searchLoop_emptyStep (Function.update f i (.ok [])) stream folder_id filename
                fs N rd v attempt fuel (hupd.trans ho)]
            exact ⟨by rw [k1], by rw [k2], k3, k4, k5, k6⟩
          | cons fi r =>
            rw [searchLoop_hit f stream folder_id filename fs N rd v attempt fuel fi r ho,
              searchLoop_hit (Function.update f i (.ok [])) stream folder_id filename fs
                N rd v attempt fuel fi r (hupd.trans ho)]
            exact ⟨rfl, rfl, rfl, rfl, rfl, rfl⟩
  exact key N.toNat 0

theorem query_error_like_empty_result_witness :
    ((fun j => if j = 1 then SearchResult.err else SearchResult.ok []) 1
      = SearchResult.err) ∧
    (search_and_download (fun j => if j = 1 then SearchResult.err else SearchResult.ok [])
        (fun _ => ⟨[], false⟩) "FLD1" "artifact.zip" none 3 5 true).sleepCalls
      = (search_and_download
          (Function.update (fun j => if j = 1 then SearchResult.err else SearchResult.ok [])
            1 (SearchResult.ok []))
          (fun _ => ⟨[], false⟩) "FLD1" "artifact.zip" none 3 5 true).sleepCalls := by
  refine ⟨rfl, ?_⟩
  exact (query_error_like_empty_result
    (fun j => if j = 1 then SearchResult.err else SearchResult.ok [])
    (fun _ => ⟨[], false⟩) "FLD1" "artifact.zip" none 3 5 true 1 rfl).2.1

/-- C4: when the chunked stream raises before completion, `download_file`
catches the exception, returns the failure outcome, and never writes: the
destination file after the call is exactly what it was before (absent stays
absent, existing content stays unchanged). -/
theorem stream_error_no_write (stream : ChunkStream) (fs : Option (List Nat))
    (h : stream.fails = true) :
    (download_file stream fs).success = false ∧
    (download_file stream fs).fsAfter = fs := by
  simp [download_file, h]

theorem stream_error_no_write_witness :
    ((⟨[[1, 2]], true⟩ : ChunkStream).fails = true) ∧
    (download_file ⟨[[1, 2]], true⟩ none).success = false ∧
    (download_file ⟨[[1, 2]], true⟩ none).fsAfter = none :=
  ⟨rfl, stream_error_no_write ⟨[[1, 2]], true⟩ none rfl⟩

/-- C9 counterexample: a stream that completes after delivering a single
empty chunk (a zero-byte file) accumulates no bytes at all, yet
`download_file` still reaches its write and leaves an (empty) file at the
destination, which was absent before: the claim that no file is ever left
when no bytes were accumulated is false. -/
theorem empty_success_leaves_file :
    (ChunkStream.mk [[]] false).chunks.flatten = [] ∧
    (download_file (ChunkStream.mk [[]] false) none).success = true ∧
    (download_file (ChunkStream.mk [[]] false) none).fsAfter = some [] := by
  refine ⟨rfl, ?_, ?_⟩ <;> simp [download_file]

/-- C9 (amended): `download_file` accumulates all chunks in memory and
performs a single write of the full accumulated content only after the
stream completes; when the stream fails before completion no write occurs
(the destination is absent or unchanged). A completed stream always
writes — even a zero-byte one, which leaves an empty file. -/
theorem single_write_after_completion (stream : ChunkStream) (fs : Option (List Nat)) :
    (stream.fails = true → (download_file stream fs).fsAfter = fs) ∧
    (stream.fails = false →
      (download_file stream fs).fsAfter = some stream.chunks.flatten) := by
  cases h : stream.fails <;> simp [download_file, h]

theorem single_write_after_completion_witness :
    ((⟨[[1], [2, 3]], false⟩ : ChunkStream).fails = false) ∧
    (download_file ⟨[[1], [2, 3]], false⟩ none).fsAfter = some [1, 2, 3] := by
  refine ⟨rfl, ?_⟩
  have h := (single_write_after_completion ⟨[[1], [2, 3]], false⟩ none).2 rfl
  simpa using h

/-! ### Progress arithmetic -/

theorem sum_take_le (l : List Nat) (j : Nat) : (l.take j).sum ≤ l.sum := by
  conv_rhs => rw [← List.take_append_drop j l]
  rw [List.sum_append]
  exact Nat.le_add_right _ _

theorem sum_take_mono (l : List Nat) (i j : Nat) (h : i ≤ j) :
    (l.take i).sum ≤ (l.take j).sum := by
  have heq : l.take i = (l.take j).take i := by
    rw [List.take_take, Nat.min_eq_left h]
  rw [heq]
  exact sum_take_le (l.take j) i

theorem progressAfter_nonneg (c : List (List Nat)) (i : Nat) :
    0 ≤ progressAfter c i := by
  unfold progressAfter
  split
  · norm_num
  · exact div_nonneg (Nat.cast_nonneg _) (Nat.cast_nonneg _)

theorem progressAfter_le_one (c : List (List Nat)) (i : Nat) :
    progressAfter c i ≤ 1 := by
  unfold progressAfter
  split
  · norm_num
  · rename_i htot
    rw [div_le_one (by exact_mod_cast Nat.pos_of_ne_zero htot)]
    have := sum_take_le (c.map List.length) (i + 1)
    rw [← List.map_take] at this
    exact_mod_cast this

theorem progressAfter_mono (c : List (List Nat)) (i : Nat) :
    progressAfter c i ≤ progressAfter c (i + 1) := by
  unfold progressAfter
  split
  · exact le_refl 1
  · rename_i htot
    have hpos : (0 : ℚ) < ((c.map List.length).sum : ℚ) := by
      exact_mod_cast Nat.pos_of_ne_zero htot
    rw [div_le_div_iff_of_pos_right hpos]
    have := sum_take_mono (c.map List.length) (i + 1) (i + 2) (by omega)
    rw [← List.map_take, ← List.map_take] at this
    exact_mod_cast this

theorem progressAfter_last (c : List (List Nat)) (h : c ≠ []) :
    progressAfter c (c.length - 1) = 1 := by
  unfold progressAfter
  split
  · rfl
  · rename_i htot
    have hlen : 1 ≤ c.length := List.length_pos.mpr h
    rw [show c.length - 1 + 1 = c.length from by omega, List.take_length]
    exact div_self (by exact_mod_cast htot)

/-- C8: for a successful download (the stream completes, having delivered
at least one chunk — the loop always pulls at least once), every reported
progress fraction lies in `[0, 1]`, the sequence is monotonically
non-decreasing across chunks, and its last element is `1`. -/
theorem progress_reports_monotone (stream : ChunkStream) (fs : Option (List Nat))
    (hok : stream.fails = false) (hne : stream.chunks ≠ []) :
    (∀ p ∈ (download_file stream fs).reports, 0 ≤ p ∧ p ≤ 1) ∧
    List.Chain' (· ≤ ·) (download_file stream fs).reports ∧
    (download_file stream fs).reports.getLast? = some 1 := by
  have hrep : (download_file stream fs).reports
      = (List.range stream.chunks.length).map (progressAfter stream.chunks) := by
    simp [download_file, hok]
  obtain ⟨m, hm⟩ : ∃ m, stream.chunks.length = m + 1 := by
    cases hc : stream.chunks with
    | nil => exact absurd hc hne
    | cons a l => exact ⟨l.length, by simp [hc]⟩
  refine ⟨?_, ?_, ?_⟩
  · intro p hp
    rw [hrep] at hp
    obtain ⟨i, -, rfl⟩ := List.mem_map.mp hp
    exact ⟨progressAfter_nonneg _ _, progressAfter_le_one _ _⟩
  · rw [hrep, hm]
    exact (List.chain'_map _).mpr
      ((List.chain'_range_succ _ m).mpr fun i _ => progressAfter_mono stream.chunks i)
  · rw [hrep, hm, List.range_succ, List.map_append]
    simp only [List.map_cons, List.map_nil, List.getLast?_concat]
    rw [show m = stream.chunks.length - 1 from by omega]
    exact congrArg some (progressAfter_last stream.chunks hne)

theorem progress_reports_monotone_witness :
    ((⟨[[1], [2]], false⟩ : ChunkStream).fails = false) ∧
    ((⟨[[1], [2]], false⟩ : ChunkStream).chunks ≠ []) ∧
    ((∀ p ∈ (download_file ⟨[[1], [2]], false⟩ none).reports, 0 ≤ p ∧ p ≤ 1) ∧
      List.Chain' (· ≤ ·) (download_file ⟨[[1], [2]], false⟩ none).reports ∧
      (download_file ⟨[[1], [2]], false⟩ none).reports.getLast? = some 1) :=
  ⟨rfl, by simp,
    progress_reports_monotone ⟨[[1], [2]], false⟩ none rfl (by simp)⟩

/-- Every query string the loop ever issues is the exact-name, non-trashed,
container-scoped query. -/
theorem searchLoop_queryStrings (oracle : Nat → SearchResult)
    (stream : String → ChunkStream) (folder_id filename : String)
    (fs : Option (List Nat)) (N rd : Int) (v : Bool) :
    ∀ fuel attempt q,
      q ∈ (searchLoop oracle stream folder_id filename fs N rd v attempt fuel).queryStrings →
      q = mkQuery filename folder_id := by
  intro fuel
  induction fuel with
  | zero => intro attempt q hq; simp [searchLoop_zero] at hq
  | succ fuel ih =>
    intro attempt q hq
    cases ho : oracle attempt with
    | err =>
      rw [searchLoop_errStep oracle stream folder_id filename fs N rd v attempt fuel ho] at hq
      rcases List.mem_cons.mp hq with h | h
      · exact h
      · exact ih (attempt + 1) q h
    | ok files =>
      cases files with
      | nil =>
        rw [searchLoop_emptyStep oracle stream folder_id filename fs N rd v attempt fuel ho] at hq
        rcases List.mem_cons.mp hq with h | h
        · exact h
        · exact ih (attempt + 1) q h
      | cons fi r =>
        rw [searchLoop_hit oracle stream folder_id filename fs N rd v attempt fuel fi r ho] at hq
        simpa using hq

/-- C6: every executed attempt issues exactly the exact-name, non-trashed
query scoped to the container, and when the first non-empty result sequence
arrives (attempt `k`, headed by `fi`), the resolved handle is exactly that
sequence's first element — the code imposes no tie-break of its own beyond
taking `files[0]`. -/
theorem exact_query_and_first_result (oracle : Nat → SearchResult)
    (stream : String → ChunkStream) (folder_id filename : String)
    (fs : Option (List Nat)) (N rd : Int) (v : Bool)
    (k : Nat) (fi : FileInfo) (rest : List FileInfo)
    (hk1 : 1 ≤ k) (hkN : (k : Int) ≤ N)
    (hmiss : ∀ i, i < k - 1 → (oracle i).isMiss = true)
    (hhit : oracle (k - 1) = .ok (fi :: rest)) :
    (∀ q ∈ (search_and_download oracle stream folder_id filename fs N rd v).queryStrings,
      q = mkQuery filename folder_id) ∧
    (search_and_download oracle stream folder_id filename fs N rd v).outcome.handle
      = some fi := by
  constructor
  · intro q hq
    exact searchLoop_queryStrings oracle stream folder_id filename fs N rd v
      N.toNat 0 q hq
  · obtain ⟨-, -, h3, -, -, -⟩ :=
      searchLoop_firstHit oracle stream folder_id filename fs N rd v (k - 1) fi rest
        hmiss hhit (by omega) N.toNat 0 (Nat.zero_add _) (by omega)
    rw [search_and_download, h3]
    cases (download_file (stream fi.id) fs).success <;> simp [Outcome.handle]

theorem exact_query_and_first_result_witness :
    (1 : Nat) ≤ 1 ∧ ((1 : Nat) : Int) ≤ 2 ∧
    ((fun _ => SearchResult.ok [⟨"idA", "artifact.zip", none, none⟩,
        ⟨"idB", "artifact.zip", none, none⟩]) ((1 : Nat) - 1)
      = SearchResult.ok [⟨"idA", "artifact.zip", none, none⟩,
        ⟨"idB", "artifact.zip", none, none⟩]) ∧
    (∀ q ∈ (search_and_download
        (fun _ => SearchResult.ok [⟨"idA", "artifact.zip", none, none⟩,
          ⟨"idB", "artifact.zip", none, none⟩])
        (fun _ => ⟨[[1]], false⟩) "FLD1" "artifact.zip" none 2 5 false).queryStrings,
      q = mkQuery "artifact.zip" "FLD1") ∧
    (search_and_download
        (fun _ => SearchResult.ok [⟨"idA", "artifact.zip", none, none⟩,
          ⟨"idB", "artifact.zip", none, none⟩])
        (fun _ => ⟨[[1]], false⟩) "FLD1" "artifact.zip" none 2 5 false).outcome.handle
      = some ⟨"idA", "artifact.zip", none, none⟩ := by
  refine ⟨by norm_num, by norm_num, rfl, ?_⟩
  exact exact_query_and_first_result
    (fun _ => SearchResult.ok [⟨"idA", "artifact.zip", none, none⟩,
      ⟨"idB", "artifact.zip", none, none⟩])
    (fun _ => ⟨[[1]], false⟩) "FLD1" "artifact.zip" none 2 5 false
    1 ⟨"idA", "artifact.zip", none, none⟩ [⟨"idB", "artifact.zip", none, none⟩]
    (by norm_num) (by norm_num) (by intro i hi; omega) rfl

/-- C5: the process exit status is `0` exactly when the run reached the
search loop and it ended in a successful download; every other path —
missing or empty credentials, missing or empty folder id, failed credential
decoding, loop exhaustion, failed download — exits with `1`. -/
theorem exit_zero_iff_download_success (args : Args) (env : Env)
    (credsValid : String → Bool) (oracle : Nat → SearchResult)
    (stream : String → ChunkStream) (fs : Option (List Nat)) :
    (main args env credsValid oracle stream fs).exitCode = 0 ↔
      ∃ t fi, (main args env credsValid oracle stream fs).run = some t ∧
        t.outcome = Outcome.success fi := by
  unfold main
  cases hc : pyOrStr args.credentials_base64 env.DRIVE_CREDENTIALS with
  | none => simp
  | some cred =>
    by_cases hce : cred = ""
    · simp [hce]
    · cases hf : pyOrStr args.folder_id env.DRIVE_FOLDER_ID with
      | none => simp [hce]
      | some folder =>
        by_cases hfe : folder = ""
        · simp [hce, hfe]
        · by_cases hcv : credsValid cred
          · have hiff := searchLoop_ret_iff oracle stream folder args.filename fs
              args.max_attempts args.retry_delay args.verbose args.max_attempts.toNat 0
            simp only [hce, hfe, hcv, if_false, if_true, not_true, ite_false, ite_true]
            cases hr : (search_and_download oracle stream folder args.filename fs
                args.max_attempts args.retry_delay args.verbose).ret with
            | true =>
              obtain ⟨fi, hfi⟩ := hiff.mp hr
              simp only [search_and_download] at hr hfi ⊢
              simp [hr, hfi]
            | false =>
              simp only [search_and_download] at hr ⊢
              constructor
              · intro h; norm_num at h
              · rintro ⟨t, fi, ht, hfi⟩
                rw [Option.some_inj] at ht
                subst ht
                rw [hiff.mpr ⟨fi, hfi⟩] at hr
                exact absurd hr (by simp)
          · simp [hce, hfe, hcv]

/-- C7: when the resolver finds the file on attempt `k` but the download
fails, the failure is terminal: exactly `k` queries ran (the remaining
attempts are abandoned), the outcome is the download-failure case for the
resolved handle, the destination file is untouched, and the process exits
with status `1`. -/
theorem download_failure_is_terminal (args : Args) (env : Env)
    (credsValid : String → Bool) (oracle : Nat → SearchResult)
    (stream : String → ChunkStream) (fs : Option (List Nat))
    (cred folder : String) (k : Nat) (fi : FileInfo) (rest : List FileInfo)
    (hcred : pyOrStr args.credentials_base64 env.DRIVE_CREDENTIALS = some cred)
    (hcrede : cred ≠ "") (hcv : credsValid cred = true)
    (hfold : pyOrStr args.folder_id env.DRIVE_FOLDER_ID = some folder)
    (hfolde : folder ≠ "")
    (hk1 : 1 ≤ k) (hkN : (k : Int) ≤ args.max_attempts)
    (hmiss : ∀ i, i < k - 1 → (oracle i).isMiss = true)
    (hhit : oracle (k - 1) = .ok (fi :: rest))
    (hfail : (stream fi.id).fails = true) :
    (main args env credsValid oracle stream fs).exitCode = 1 ∧
    ∃ t, (main args env credsValid oracle stream fs).run = some t ∧
      t.queryStrings.length = k ∧ t.outcome = Outcome.downloadFailed fi ∧
      t.ret = false ∧ t.fsAfter = fs := by
  obtain ⟨h1, -, h3, h4, h5, -⟩ :=
    searchLoop_firstHit oracle stream folder args.filename fs args.max_attempts
      args.retry_delay args.verbose (k - 1) fi rest hmiss hhit (by omega)
      args.max_attempts.toNat 0 (Nat.zero_add _) (by omega)
  have hds : (download_file (stream fi.id) fs).success = false := by
    simp [download_file, hfail]
  have hdf : (download_file (stream fi.id) fs).fsAfter = fs := by
    simp [download_file, hfail]
  rw [← search_and_download] at h1 h3 h4 h5
  rw [hds] at h3 h4
  rw [hdf] at h5
  simp only [if_false, Bool.false_eq_true] at h3
  unfold main
  rw [hcred, hfold]
  simp only [hcrede, hfolde, hcv, if_false, ite_false, not_true, ite_true,
    Bool.not_eq_true]
  refine ⟨?_, ?_⟩
  · simp [h4]
  · refine ⟨_, rfl, ?_, h3, h4, h5⟩
    rw [h1]
    simp only [List.length_replicate]
    omega

/-- C10: a non-positive `max_attempts` (outside the spec's precondition)
makes `range(max_attempts)` empty: the loop body never executes — no
queries, no sleeps, no diagnostic listings, no download — the run
immediately reports the not-found outcome (still carrying the filename and
the non-positive attempt count) and the process exits with status `1`. -/
theorem nonpositive_max_attempts_no_queries (args : Args) (env : Env)
    (credsValid : String → Bool) (oracle : Nat → SearchResult)
    (stream : String → ChunkStream) (fs : Option (List Nat))
    (cred folder : String)
    (hcred : pyOrStr args.credentials_base64 env.DRIVE_CREDENTIALS = some cred)
    (hcrede : cred ≠ "") (hcv : credsValid cred = true)
    (hfold : pyOrStr args.folder_id env.DRIVE_FOLDER_ID = some folder)
    (hfolde : folder ≠ "") (hN : args.max_attempts ≤ 0) :
    (main args env credsValid oracle stream fs).exitCode = 1 ∧
    (main args env credsValid oracle stream fs).run =
      some { queryStrings := [], sleepCalls := [], diagQueries := 0,
             outcome := .notFound args.filename args.max_attempts, ret := false,
             fsAfter := fs, reports := [] } := by
  have ht : search_and_download oracle stream folder args.filename fs
      args.max_attempts args.retry_delay args.verbose =
      { queryStrings := [], sleepCalls := [], diagQueries := 0,
        outcome := .notFound args.filename args.max_attempts, ret := false,
        fsAfter := fs, reports := [] } := by
    rw [search_and_download, show args.max_attempts.toNat = 0 from by omega]
    exact searchLoop_zero oracle stream folder args.filename fs args.max_attempts
      args.retry_delay args.verbose 0
  unfold main
  rw [hcred, hfold]
  simp only [hcrede, hfolde, hcv, if_false, ite_false, not_true, ite_true,
    Bool.not_eq_true]
  rw [ht]
  exact ⟨rfl, rfl⟩

theorem download_failure_is_terminal_witness :
    (pyOrStr (some "CREDS") none = some "CREDS") ∧ ("CREDS" : String) ≠ "" ∧
    ((fun _ : String => true) "CREDS" = true) ∧
    (pyOrStr (some "FLD1") none = some "FLD1") ∧ ("FLD1" : String) ≠ "" ∧
    (1 : Nat) ≤ 1 ∧ ((1 : Nat) : Int) ≤ 3 ∧
    ((fun _ : Nat => SearchResult.ok [⟨"idA", "artifact.zip", none, none⟩]) (1 - 1)
      = SearchResult.ok [⟨"idA", "artifact.zip", none, none⟩]) ∧
    (((fun _ : String => (⟨[[1, 2]], true⟩ : ChunkStream)) "idA").fails = true) ∧
    ((main ⟨"artifact.zip", some "CREDS", some "FLD1", none, 3, 5, false⟩ ⟨none, none⟩
        (fun _ => true) (fun _ => SearchResult.ok [⟨"idA", "artifact.zip", none, none⟩])
        (fun _ => ⟨[[1, 2]], true⟩) none).exitCode = 1 ∧
      ∃ t, (main ⟨"artifact.zip", some "CREDS", some "FLD1", none, 3, 5, false⟩ ⟨none, none⟩
          (fun _ => true) (fun _ => SearchResult.ok [⟨"idA", "artifact.zip", none, none⟩])
          (fun _ => ⟨[[1, 2]], true⟩) none).run = some t ∧
        t.queryStrings.length = 1 ∧
        t.outcome = Outcome.downloadFailed ⟨"idA", "artifact.zip", none, none⟩ ∧
        t.ret = false ∧ t.fsAfter = none) := by
  refine ⟨by decide, by decide, rfl, by decide, by decide, by norm_num, by norm_num,
    rfl, rfl, ?_⟩
  exact download_failure_is_terminal
    ⟨"artifact.zip", some "CREDS", some "FLD1", none, 3, 5, false⟩ ⟨none, none⟩
    (fun _ => true) (fun _ => SearchResult.ok [⟨"idA", "artifact.zip", none, none⟩])
    (fun _ => ⟨[[1, 2]], true⟩) none "CREDS" "FLD1" 1
    ⟨"idA", "artifact.zip", none, none⟩ []
    (by decide) (by decide) rfl (by decide) (by decide) (by norm_num) (by norm_num)
    (fun i hi => absurd hi (Nat.not_lt_zero i)) rfl rfl

theorem nonpositive_max_attempts_no_queries_witness :
    (pyOrStr (some "CREDS") none = some "CREDS") ∧ ("CREDS" : String) ≠ "" ∧
    ((fun _ : String => true) "CREDS" = true) ∧
    (pyOrStr (some "FLD1") none = some "FLD1") ∧ ("FLD1" : String) ≠ "" ∧
    ((-2 : Int) ≤ 0) ∧
    ((main ⟨"artifact.zip", some "CREDS", some "FLD1", none, -2, 5, false⟩ ⟨none, none⟩
        (fun _ => true) (fun _ => SearchResult.err) (fun _ => ⟨[], false⟩)
        none).exitCode = 1 ∧
      (main ⟨"artifact.zip", some "CREDS", some "FLD1", none, -2, 5, false⟩ ⟨none, none⟩
        (fun _ => true) (fun _ => SearchResult.err) (fun _ => ⟨[], false⟩) none).run =
      some { queryStrings := [], sleepCalls := [], diagQueries := 0,
             outcome := .notFound "artifact.zip" (-2), ret := false,
             fsAfter := none, reports := [] }) := by
  refine ⟨by decide, by decide, rfl, by decide, by decide, by norm_num, ?_⟩
  exact nonpositive_max_attempts_no_queries
    ⟨"artifact.zip", some "CREDS", some "FLD1", none, -2, 5, false⟩ ⟨none, none⟩
    (fun _ => true) (fun _ => SearchResult.err) (fun _ => ⟨[], false⟩) none
    "CREDS" "FLD1" (by decide) (by decide) rfl (by decide) (by decide) (by norm_num)

end DownloadFromDrive
